import Mathlib

/-!
Shallow embedding of the snake game in src/SnakeGame.tsx.

State held in React hooks (snake, food, gameOver, score, isPaused,
gameStarted, directionRef) is collected into one record `GameState`.
The keyboard handler (lines 56-106) becomes `handleKeyPress`, the
interval callback of the game loop (lines 122-179) becomes `tick`.

Randomness: `Math.floor(Math.random() * GRID_SIZE)` is modelled by an
injected stream of draws `rho : Nat -> Position` (draw `k` supplies the
pair of floored coordinates of the k-th `generateFood` call); the
mathematical fact that a floored draw lies in [0, GRID_SIZE) is carried
as the hypothesis `RandBounded`.  The unbounded `while` retry loops
(lines 47-50, 68-71, 167-170) become the fuel-indexed `foodRetryLoop`,
which returns `none` when the fuel is exhausted before a valid draw.
-/

namespace Snake

/-- Grid positions: an integer pair, as in the `Position` type of the source
(coordinates may leave the grid transiently, e.g. x = -1, so `Int`). -/
structure Position where
  x : Int
  y : Int
deriving DecidableEq, Repr

/-- Movement directions, as in the `Direction` union type of the source. -/
inductive Direction where
  | UP
  | DOWN
  | LEFT
  | RIGHT
deriving DecidableEq, Repr

/-- GRID_SIZE constant (line 11). -/
def GRID_SIZE : Int := 20

/-- INITIAL_SNAKE constant (lines 12-16). -/
def INITIAL_SNAKE : List Position := [⟨10, 10⟩, ⟨10, 11⟩, ⟨10, 12⟩]

/-- INITIAL_DIRECTION constant (line 17). -/
def INITIAL_DIRECTION : Direction := .UP

/-- Combined hook state of the component: snake, food, gameOver, score,
isPaused, gameStarted (lines 21-26) plus directionRef (line 28). -/
structure GameState where
  snake : List Position
  food : Position
  gameOver : Bool
  score : Nat
  isPaused : Bool
  gameStarted : Bool
  direction : Direction
deriving DecidableEq, Repr

/-- Initial hook values: INITIAL_SNAKE, food (15,15), no game over, score 0,
not paused, not started, direction UP (lines 21-28). -/
def initState : GameState :=
  { snake := INITIAL_SNAKE
    food := ⟨15, 15⟩
    gameOver := false
    score := 0
    isPaused := false
    gameStarted := false
    direction := INITIAL_DIRECTION }

/-- Position lies on the grid: both coordinates in [0, GRID_SIZE).
Spec section 3, Position. -/
abbrev InBounds (p : Position) : Prop :=
  0 ≤ p.x ∧ p.x < GRID_SIZE ∧ 0 ≤ p.y ∧ p.y < GRID_SIZE

/-- generateFood (lines 32-38): one draw from the injected random stream;
draw k is the pair of floored random coordinates of the k-th call. -/
def generateFood (rho : Nat → Position) (k : Nat) : Position := rho k

/-- Every draw of the stream is on the grid: the floored value of
`Math.random() * GRID_SIZE` always lies in [0, GRID_SIZE). -/
def RandBounded (rho : Nat → Position) : Prop :=
  ∀ k, InBounds (rho k)

/-- isValidFoodPosition (lines 41-43): the position coincides with no
snake segment. -/
def isValidFoodPosition (pos : Position) (snakeBody : List Position) : Bool :=
  !(snakeBody.any fun segment => segment.x == pos.x && segment.y == pos.y)

/-- The `while (!isValidFoodPosition(newFood, body)) newFood = generateFood()`
retry loop (lines 47-50, 68-71, 167-170): scan draws from index k on,
return the first valid one; `none` when the fuel runs out first. -/
def foodRetryLoop (rho : Nat → Position) (body : List Position) :
    Nat → Nat → Option Position
  | 0, _ => none
  | fuel + 1, k =>
    if isValidFoodPosition (generateFood rho k) body then
      some (generateFood rho k)
    else
      foodRetryLoop rho body fuel (k + 1)

/-- Wall-collision test of the game loop (lines 144-149). -/
def wallCollision (p : Position) : Bool :=
  decide (p.x < 0 ∨ GRID_SIZE ≤ p.x ∨ p.y < 0 ∨ GRID_SIZE ≤ p.y)

/-- Self-collision test of the game loop (line 155):
`prevSnake.some(segment => segment.x === head.x && segment.y === head.y)`. -/
def checkSelfCollision (head : Position) (body : List Position) : Bool :=
  body.any fun segment => segment.x == head.x && segment.y == head.y

/-- Head displacement by one cell along the current direction
(switch statement, lines 128-141). -/
def moveHead (p : Position) : Direction → Position
  | .UP => ⟨p.x, p.y - 1⟩
  | .DOWN => ⟨p.x, p.y + 1⟩
  | .LEFT => ⟨p.x - 1, p.y⟩
  | .RIGHT => ⟨p.x + 1, p.y⟩

/-- keyMap of the handler (lines 81-90): raw key identifier to direction. -/
def keyMap : String → Option Direction
  | "ArrowUp" => some .UP
  | "ArrowDown" => some .DOWN
  | "ArrowLeft" => some .LEFT
  | "ArrowRight" => some .RIGHT
  | "w" => some .UP
  | "s" => some .DOWN
  | "a" => some .LEFT
  | "d" => some .RIGHT
  | _ => none

/-- oppositeDirections record (lines 95-100). -/
def oppositeDirections : Direction → Direction
  | .UP => .DOWN
  | .DOWN => .UP
  | .LEFT => .RIGHT
  | .RIGHT => .LEFT

/-- handleKeyPress (lines 56-106).  The restart branch re-runs the food
retry loop against INITIAL_SNAKE; `none` models that loop failing to
return within the given fuel. -/
def handleKeyPress (rho : Nat → Position) (fuel : Nat) (key : String)
    (s : GameState) : Option GameState :=
  if !s.gameStarted ∧ key ≠ " " then some s
  else if key = " " then
    if s.gameOver then
      match foodRetryLoop rho INITIAL_SNAKE fuel 0 with
      | some f =>
        some { s with
          snake := INITIAL_SNAKE
          direction := INITIAL_DIRECTION
          gameOver := false
          score := 0
          isPaused := false
          gameStarted := true
          food := f }
      | none => none
    else
      some { s with isPaused := !s.isPaused }
  else if s.isPaused ∨ s.gameOver then some s
  else
    match keyMap key with
    | some d =>
      if d ≠ oppositeDirections s.direction then
        some { s with direction := d }
      else
        some s
    | none => some s

/-- Game-loop interval callback (lines 122-179): displace the head, test
wall and self collision, then grow on food or shift otherwise.  The
source reads `prevSnake[0]`; an empty snake (unreachable) is modelled
as `none`, as is exhaustion of the food retry fuel. -/
def tick (rho : Nat → Position) (fuel : Nat) (s : GameState) :
    Option GameState :=
  match s.snake with
  | [] => none
  | h :: _ =>
    let head := moveHead h s.direction
    if wallCollision head then
      some { s with gameOver := true }
    else if checkSelfCollision head s.snake then
      some { s with gameOver := true }
    else
      let newSnake := head :: s.snake
      if head.x = s.food.x ∧ head.y = s.food.y then
        match foodRetryLoop rho newSnake fuel 0 with
        | some f =>
          some { s with snake := newSnake, score := s.score + 10, food := f }
        | none => none
      else
        some { s with snake := newSnake.dropLast }

/-- startGame (lines 190-193): the explicit start action of the UI button. -/
def startGame (s : GameState) : GameState :=
  { s with gameStarted := true, isPaused := false }

/-- Food-initialization effect (lines 46-52): replace the food with the
first valid draw against the current snake. -/
def initFood (rho : Nat → Position) (fuel : Nat) (s : GameState) :
    Option GameState :=
  match foodRetryLoop rho s.snake fuel 0 with
  | some f => some { s with food := f }
  | none => none

/-- One observable transition of the component: a key event, a game-loop
tick (which only fires while started, unpaused and not over, by the
guard of the effect at line 114), the start button, or the mount-time
food initialization effect. -/
inductive Step : GameState → GameState → Prop where
  | keyEvent (rho : Nat → Position) (fuel : Nat) (key : String)
      (s s' : GameState) :
      handleKeyPress rho fuel key s = some s' → Step s s'
  | tickEvent (rho : Nat → Position) (fuel : Nat) (s s' : GameState) :
      s.gameStarted = true → s.isPaused = false → s.gameOver = false →
      tick rho fuel s = some s' → Step s s'
  | startEvent (s : GameState) : Step s (startGame s)
  | initFoodEvent (rho : Nat → Position) (fuel : Nat) (s s' : GameState) :
      initFood rho fuel s = some s' → Step s s'

/-- Committed states reachable from the initial hook values. -/
def Reachable (s : GameState) : Prop :=
  Relation.ReflTransGen Step initState s

/-- Snake structural invariant on a body list (spec section 3): non-empty,
no two segments equal, every segment on the grid. -/
def SnakeListInv (l : List Position) : Prop :=
  l ≠ [] ∧ l.Nodup ∧ ∀ p ∈ l, InBounds p

/-- Snake structural invariant of a game state. -/
def SnakeInv (s : GameState) : Prop :=
  SnakeListInv s.snake

end Snake

namespace Snake

/-- Positions are equal exactly when both coordinates agree. -/
theorem position_eq_iff (p q : Position) : p = q ↔ p.x = q.x ∧ p.y = q.y := by
  cases p
  cases q
  simp

/-- The self-collision test fires exactly on membership in the body list. -/
theorem checkSelfCollision_eq_true_iff (head : Position) (body : List Position) :
    checkSelfCollision head body = true ↔ head ∈ body := by
  unfold checkSelfCollision
  rw [List.any_eq_true]
  constructor
  · rintro ⟨seg, hmem, hseg⟩
    simp only [Bool.and_eq_true, beq_iff_eq] at hseg
    have hpos : seg = head := (position_eq_iff seg head).mpr hseg
    rwa [hpos] at hmem
  · intro hmem
    exact ⟨head, hmem, by simp⟩

/-- The self-collision test is silent exactly on non-membership. -/
theorem checkSelfCollision_eq_false_iff (head : Position) (body : List Position) :
    checkSelfCollision head body = false ↔ head ∉ body := by
  constructor
  · intro h hmem
    rw [(checkSelfCollision_eq_true_iff head body).mpr hmem] at h
    exact absurd h (by decide)
  · intro h
    cases hc : checkSelfCollision head body
    · rfl
    · exact absurd ((checkSelfCollision_eq_true_iff head body).mp hc) h

/-- The food validity test accepts exactly the positions off the body. -/
theorem isValidFoodPosition_eq_true_iff (pos : Position) (body : List Position) :
    isValidFoodPosition pos body = true ↔ pos ∉ body := by
  have hrepr : isValidFoodPosition pos body = !(checkSelfCollision pos body) := rfl
  rw [hrepr, Bool.not_eq_true']
  exact checkSelfCollision_eq_false_iff pos body

/-- The wall test is silent exactly on in-bounds positions. -/
theorem wallCollision_eq_false_iff (p : Position) :
    wallCollision p = false ↔ InBounds p := by
  unfold wallCollision
  simp only [decide_eq_false_iff_not, not_or, not_lt, not_le]

/-- Every value the retry loop returns is a draw of the stream that passed
the validity test. -/
theorem foodRetryLoop_some_spec (rho : Nat → Position) (body : List Position) :
    ∀ fuel k f, foodRetryLoop rho body fuel k = some f →
      ∃ j, f = generateFood rho j ∧ isValidFoodPosition f body = true := by
  intro fuel
  induction fuel with
  | zero =>
    intro k f h
    simp [foodRetryLoop] at h
  | succ n ih =>
    intro k f h
    unfold foodRetryLoop at h
    split at h
    · rename_i hvalid
      injection h with h
      subst h
      exact ⟨k, rfl, hvalid⟩
    · exact ih (k + 1) f h

/-- When draw number j + n is valid, fuel n + 1 suffices for the loop
started at index j to return. -/
theorem foodRetryLoop_reaches (rho : Nat → Position) (body : List Position) :
    ∀ n j, isValidFoodPosition (generateFood rho (j + n)) body = true →
      ∃ f, foodRetryLoop rho body (n + 1) j = some f := by
  intro n
  induction n with
  | zero =>
    intro j h
    refine ⟨generateFood rho j, ?_⟩
    rw [Nat.add_zero] at h
    unfold foodRetryLoop
    simp [h]
  | succ m ih =>
    intro j h
    by_cases hv : isValidFoodPosition (generateFood rho j) body = true
    · exact ⟨generateFood rho j, by unfold foodRetryLoop; simp [hv]⟩
    · have h' : isValidFoodPosition (generateFood rho (j + 1 + m)) body = true := by
        rw [show j + 1 + m = j + (m + 1) by omega]
        exact h
      obtain ⟨f, hf⟩ := ih (j + 1) h'
      refine ⟨f, ?_⟩
      unfold foodRetryLoop
      simp [hv, hf]

end Snake

namespace Snake

/-- Collision branch of the game loop: both collision outcomes only set
the gameOver flag and return the previous snake. -/
theorem tick_collision (rho : Nat → Position) (fuel : Nat) (s : GameState)
    (h : Position) (t : List Position) (hs : s.snake = h :: t)
    (hcol : wallCollision (moveHead h s.direction) = true ∨
      checkSelfCollision (moveHead h s.direction) s.snake = true) :
    tick rho fuel s = some { s with gameOver := true } := by
  obtain ⟨sn, fd, go, sc, ip, gs, dir⟩ := s
  simp only at hs hcol
  subst hs
  rcases hcol with hw | hsc
  · simp [tick, hw]
  · cases hw : wallCollision (moveHead h dir)
    · simp [tick, hw, hsc]
    · simp [tick, hw]

/-- Plain-move branch of the game loop: no collision, head off the food;
the new head is prepended and the tail dropped. -/
theorem tick_no_eat (rho : Nat → Position) (fuel : Nat) (s : GameState)
    (h : Position) (t : List Position) (hs : s.snake = h :: t)
    (hw : wallCollision (moveHead h s.direction) = false)
    (hsc : checkSelfCollision (moveHead h s.direction) s.snake = false)
    (hf : ¬((moveHead h s.direction).x = s.food.x ∧
      (moveHead h s.direction).y = s.food.y)) :
    tick rho fuel s =
      some { s with snake := (moveHead h s.direction :: s.snake).dropLast } := by
  obtain ⟨sn, fd, go, sc, ip, gs, dir⟩ := s
  simp only at hs hw hsc hf
  subst hs
  simp [tick, hw, hsc, hf]

/-- Eating branch of the game loop when the retry loop returns: the grown
snake is committed, the score raised by 10, the food replaced. -/
theorem tick_eat (rho : Nat → Position) (fuel : Nat) (s : GameState)
    (h : Position) (t : List Position) (f : Position) (hs : s.snake = h :: t)
    (hw : wallCollision (moveHead h s.direction) = false)
    (hsc : checkSelfCollision (moveHead h s.direction) s.snake = false)
    (hf : (moveHead h s.direction).x = s.food.x ∧
      (moveHead h s.direction).y = s.food.y)
    (hloop : foodRetryLoop rho (moveHead h s.direction :: s.snake) fuel 0 =
      some f) :
    tick rho fuel s =
      some { s with
        snake := moveHead h s.direction :: s.snake
        score := s.score + 10
        food := f } := by
  obtain ⟨sn, fd, go, sc, ip, gs, dir⟩ := s
  simp only at hs hw hsc hf hloop
  subst hs
  simp [tick, hw, hsc, hf, hloop]

/-- Eating branch of the game loop when the retry fuel runs out: the tick
produces no state. -/
theorem tick_eat_none (rho : Nat → Position) (fuel : Nat) (s : GameState)
    (h : Position) (t : List Position) (hs : s.snake = h :: t)
    (hw : wallCollision (moveHead h s.direction) = false)
    (hsc : checkSelfCollision (moveHead h s.direction) s.snake = false)
    (hf : (moveHead h s.direction).x = s.food.x ∧
      (moveHead h s.direction).y = s.food.y)
    (hloop : foodRetryLoop rho (moveHead h s.direction :: s.snake) fuel 0 =
      none) :
    tick rho fuel s = none := by
  obtain ⟨sn, fd, go, sc, ip, gs, dir⟩ := s
  simp only at hs hw hsc hf hloop
  subst hs
  simp [tick, hw, hsc, hf, hloop]

end Snake

namespace Snake

/-- The key handler never commits a snake other than the previous one or,
on restart, INITIAL_SNAKE. -/
theorem handleKeyPress_snake_shape (rho : Nat → Position) (fuel : Nat)
    (key : String) (s s' : GameState)
    (h : handleKeyPress rho fuel key s = some s') :
    s'.snake = s.snake ∨ s'.snake = INITIAL_SNAKE := by
  unfold handleKeyPress at h
  split at h
  · injection h with h
    subst h
    exact Or.inl rfl
  · split at h
    · split at h
      · split at h
        · injection h with h
          subst h
          exact Or.inr rfl
        · exact absurd h (by simp)
      · injection h with h
        subst h
        exact Or.inl rfl
    · split at h
      · injection h with h
        subst h
        exact Or.inl rfl
      · split at h
        · split at h
          · injection h with h
            subst h
            exact Or.inl rfl
          · injection h with h
            subst h
            exact Or.inl rfl
        · injection h with h
          subst h
          exact Or.inl rfl

/-- The food-initialization effect never changes the snake. -/
theorem initFood_snake_shape (rho : Nat → Position) (fuel : Nat)
    (s s' : GameState) (h : initFood rho fuel s = some s') :
    s'.snake = s.snake := by
  unfold initFood at h
  split at h
  · injection h with h
    subst h
    rfl
  · exact absurd h (by simp)

/-- INITIAL_SNAKE satisfies the structural snake invariant. -/
theorem snakeListInv_INITIAL : SnakeListInv INITIAL_SNAKE := by
  unfold SnakeListInv INITIAL_SNAKE
  refine ⟨by decide, by decide, by decide⟩

/-- The initial committed state satisfies the snake invariant. -/
theorem snakeInv_initState : SnakeInv initState := by
  unfold SnakeInv initState
  exact snakeListInv_INITIAL

/-- One game-loop tick preserves the snake invariant. -/
theorem tick_preserves_inv (rho : Nat → Position) (fuel : Nat)
    (s s' : GameState) (hinv : SnakeInv s)
    (h : tick rho fuel s = some s') : SnakeInv s' := by
  obtain ⟨hne, hnodup, hbounds⟩ := hinv
  rcases hsn : s.snake with _ | ⟨h1, t⟩
  · exact absurd hsn hne
  rw [hsn] at hnodup hbounds
  by_cases hw : wallCollision (moveHead h1 s.direction) = true
  · rw [tick_collision rho fuel s h1 t hsn (Or.inl hw)] at h
    injection h with h
    subst h
    unfold SnakeInv SnakeListInv
    simp only
    rw [hsn]
    exact ⟨by simp, hnodup, hbounds⟩
  · rw [Bool.not_eq_true] at hw
    by_cases hsc : checkSelfCollision (moveHead h1 s.direction) s.snake = true
    · rw [tick_collision rho fuel s h1 t hsn (Or.inr hsc)] at h
      injection h with h
      subst h
      unfold SnakeInv SnakeListInv
      simp only
      rw [hsn]
      exact ⟨by simp, hnodup, hbounds⟩
    · rw [Bool.not_eq_true] at hsc
      have hmem : moveHead h1 s.direction ∉ s.snake :=
        (checkSelfCollision_eq_false_iff _ _).mp hsc
      have hbhead : InBounds (moveHead h1 s.direction) :=
        (wallCollision_eq_false_iff _).mp hw
      rw [hsn] at hmem
      by_cases hf : (moveHead h1 s.direction).x = s.food.x ∧
          (moveHead h1 s.direction).y = s.food.y
      · rcases hloop : foodRetryLoop rho (moveHead h1 s.direction :: s.snake)
            fuel 0 with _ | f
        · rw [tick_eat_none rho fuel s h1 t hsn hw hsc hf hloop] at h
          exact absurd h (by simp)
        · rw [tick_eat rho fuel s h1 t f hsn hw hsc hf hloop] at h
          injection h with h
          subst h
          unfold SnakeInv SnakeListInv
          simp only
          rw [hsn]
          refine ⟨by simp, List.nodup_cons.mpr ⟨hmem, hnodup⟩, ?_⟩
          intro p hp
          rcases List.mem_cons.mp hp with hp | hp
          · rw [hp]
            exact hbhead
          · exact hbounds p hp
      · rw [tick_no_eat rho fuel s h1 t hsn hw hsc hf] at h
        injection h with h
        subst h
        unfold SnakeInv SnakeListInv
        simp only
        rw [hsn]
        have hfullnodup : (moveHead h1 s.direction :: h1 :: t).Nodup :=
          List.nodup_cons.mpr ⟨hmem, hnodup⟩
        refine ⟨?_, ?_, ?_⟩
        · have hlen : (moveHead h1 s.direction :: h1 :: t).dropLast.length =
              t.length + 1 := by
            rw [List.length_dropLast]
            simp
          intro hnil
          rw [hnil] at hlen
          simp at hlen
        · exact List.Nodup.sublist (List.dropLast_sublist _) hfullnodup
        · intro p hp
          have hpfull : p ∈ moveHead h1 s.direction :: h1 :: t :=
            (List.dropLast_sublist _).subset hp
          rcases List.mem_cons.mp hpfull with hp2 | hp2
          · rw [hp2]
            exact hbhead
          · exact hbounds p hp2

/-- Every observable transition preserves the snake invariant. -/
theorem step_preserves_inv (s s' : GameState) (hstep : Step s s')
    (hinv : SnakeInv s) : SnakeInv s' := by
  cases hstep with
  | keyEvent rho fuel key _ _ h =>
    rcases handleKeyPress_snake_shape rho fuel key s s' h with hsn | hsn
    · unfold SnakeInv at *
      rw [hsn]
      exact hinv
    · unfold SnakeInv
      rw [hsn]
      exact snakeListInv_INITIAL
  | tickEvent rho fuel _ _ hgs hip hgo h =>
    exact tick_preserves_inv rho fuel s s' hinv h
  | startEvent _ => exact hinv
  | initFoodEvent rho fuel _ _ h =>
    unfold SnakeInv at *
    rw [initFood_snake_shape rho fuel s s' h]
    exact hinv

end Snake

namespace Snake

/-- Demo state: running game whose head at (0,5) faces LEFT into the wall. -/
def wallDemoState : GameState :=
  { snake := [⟨0, 5⟩, ⟨1, 5⟩]
    food := ⟨15, 15⟩
    gameOver := false
    score := 7
    isPaused := false
    gameStarted := true
    direction := .LEFT }

/-- Demo state: running game with the initial snake moving UP, food away. -/
def moveDemoState : GameState :=
  { snake := INITIAL_SNAKE
    food := ⟨15, 15⟩
    gameOver := false
    score := 0
    isPaused := false
    gameStarted := true
    direction := .UP }

/-- Demo state: running game with the initial snake moving UP onto the food. -/
def eatDemoState : GameState :=
  { snake := INITIAL_SNAKE
    food := ⟨10, 9⟩
    gameOver := false
    score := 0
    isPaused := false
    gameStarted := true
    direction := .UP }

/-- C1: the claim that the space key is ignored while the game has not
started is false on the code: the guard at line 57 lets space through,
and since gameOver is false pre-start, line 74 toggles isPaused, so the
state changes. -/
theorem C1_space_prestart_counterexample :
    initState.gameStarted = false ∧ initState.isPaused = false ∧
    handleKeyPress (fun _ => ⟨0, 0⟩) 0 " " initState =
      some { initState with isPaused := true } ∧
    ({ initState with isPaused := true } : GameState) ≠ initState := by
  refine ⟨rfl, rfl, by decide, by decide⟩

/-- C1 amended: while the game has not started, every key other than
space is ignored, but the space key is handled: because gameOver is
false pre-start, it toggles isPaused (it does not restart). -/
theorem C1_space_prestart_amended (rho : Nat → Position) (fuel : Nat)
    (key : String) (s : GameState) (hns : s.gameStarted = false) :
    (key ≠ " " → handleKeyPress rho fuel key s = some s) ∧
    (s.gameOver = false →
      handleKeyPress rho fuel " " s = some { s with isPaused := !s.isPaused }) := by
  constructor
  · intro hk
    unfold handleKeyPress
    rw [hns]
    simp [hk]
  · intro hgo
    unfold handleKeyPress
    rw [hns, hgo]
    simp

/-- Witness for C1 amended at the initial state with the key w. -/
theorem C1_space_prestart_amended_witness :
    ("w" ≠ " " → handleKeyPress (fun _ => ⟨0, 0⟩) 0 "w" initState = some initState) ∧
    (initState.gameOver = false →
      handleKeyPress (fun _ => ⟨0, 0⟩) 0 " " initState =
        some { initState with isPaused := !initState.isPaused }) :=
  C1_space_prestart_amended (fun _ => ⟨0, 0⟩) 0 "w" initState rfl

/-- C2: the self-collision check signals a collision exactly when the
candidate head equals some element of the full pre-move body; in
particular the current tail cell (the last element) always signals. -/
theorem C2_self_collision_full_body (head : Position) (body : List Position)
    (hne : body ≠ []) :
    (checkSelfCollision head body = true ↔ head ∈ body) ∧
    checkSelfCollision (body.getLast hne) body = true := by
  refine ⟨checkSelfCollision_eq_true_iff head body, ?_⟩
  exact (checkSelfCollision_eq_true_iff _ _).mpr (List.getLast_mem hne)

/-- Witness for C2 at the initial snake and its tail cell (10,12). -/
theorem C2_self_collision_full_body_witness :
    ((checkSelfCollision ⟨10, 12⟩ INITIAL_SNAKE = true ↔
      (⟨10, 12⟩ : Position) ∈ INITIAL_SNAKE) ∧
      checkSelfCollision (INITIAL_SNAKE.getLast (by decide)) INITIAL_SNAKE = true) :=
  C2_self_collision_full_body ⟨10, 12⟩ INITIAL_SNAKE (by decide)

/-- C3: a Running tick whose displaced head hits the wall or the pre-move
body commits only the gameOver flag: the snake, score and food are
exactly their pre-tick values. -/
theorem C3_collision_tick_atomic (rho : Nat → Position) (fuel : Nat)
    (s : GameState) (h : Position) (t : List Position)
    (_hrun : s.gameStarted = true) (_hpause : s.isPaused = false)
    (_hover : s.gameOver = false) (hs : s.snake = h :: t)
    (hcol : wallCollision (moveHead h s.direction) = true ∨
      checkSelfCollision (moveHead h s.direction) s.snake = true) :
    ∃ s', tick rho fuel s = some s' ∧ s'.gameOver = true ∧
      s'.snake = s.snake ∧ s'.score = s.score ∧ s'.food = s.food :=
  ⟨{ s with gameOver := true }, tick_collision rho fuel s h t hs hcol,
    rfl, rfl, rfl, rfl⟩

/-- Witness for C3: head at (0,5) moving LEFT to x = -1. -/
theorem C3_collision_tick_atomic_witness :
    ∃ s', tick (fun _ => ⟨0, 0⟩) 0 wallDemoState = some s' ∧
      s'.gameOver = true ∧ s'.snake = wallDemoState.snake ∧
      s'.score = wallDemoState.score ∧ s'.food = wallDemoState.food :=
  C3_collision_tick_atomic (fun _ => ⟨0, 0⟩) 0 wallDemoState ⟨0, 5⟩ [⟨1, 5⟩]
    rfl rfl rfl rfl (Or.inl (by decide))

/-- C4: on a non-colliding tick the snake length is preserved when the
new head misses the food and grows by exactly one when it hits it. -/
theorem C4_tick_length (rho : Nat → Position) (fuel : Nat) (s : GameState)
    (h : Position) (t : List Position) (hs : s.snake = h :: t)
    (hw : wallCollision (moveHead h s.direction) = false)
    (hsc : checkSelfCollision (moveHead h s.direction) s.snake = false) :
    (¬((moveHead h s.direction).x = s.food.x ∧
        (moveHead h s.direction).y = s.food.y) →
      ∃ s', tick rho fuel s = some s' ∧ s'.snake.length = s.snake.length) ∧
    (((moveHead h s.direction).x = s.food.x ∧
        (moveHead h s.direction).y = s.food.y) →
      ∀ s', tick rho fuel s = some s' → s'.snake.length = s.snake.length + 1) := by
  constructor
  · intro hf
    refine ⟨_, tick_no_eat rho fuel s h t hs hw hsc hf, ?_⟩
    simp only
    rw [hs, List.length_dropLast]
    simp
  · intro hf s' htick
    rcases hloop : foodRetryLoop rho (moveHead h s.direction :: s.snake)
        fuel 0 with _ | f
    · rw [tick_eat_none rho fuel s h t hs hw hsc hf hloop] at htick
      exact absurd htick (by simp)
    · rw [tick_eat rho fuel s h t f hs hw hsc hf hloop] at htick
      injection htick with htick
      subst htick
      simp

/-- Witness for C4 at the initial snake moving UP with the food away. -/
theorem C4_tick_length_witness :
    (¬((moveHead ⟨10, 10⟩ moveDemoState.direction).x = moveDemoState.food.x ∧
        (moveHead ⟨10, 10⟩ moveDemoState.direction).y = moveDemoState.food.y) →
      ∃ s', tick (fun _ => ⟨0, 0⟩) 0 moveDemoState = some s' ∧
        s'.snake.length = moveDemoState.snake.length) ∧
    (((moveHead ⟨10, 10⟩ moveDemoState.direction).x = moveDemoState.food.x ∧
        (moveHead ⟨10, 10⟩ moveDemoState.direction).y = moveDemoState.food.y) →
      ∀ s', tick (fun _ => ⟨0, 0⟩) 0 moveDemoState = some s' →
        s'.snake.length = moveDemoState.snake.length + 1) :=
  C4_tick_length (fun _ => ⟨0, 0⟩) 0 moveDemoState ⟨10, 10⟩
    [⟨10, 11⟩, ⟨10, 12⟩] rfl (by decide) (by decide)

/-- C5: a tick whose new head hits the food commits the grown snake with
the score raised by exactly 10 and a food position off every segment of
the grown snake. -/
theorem C5_eat_tick_commit (rho : Nat → Position) (fuel : Nat)
    (s : GameState) (h : Position) (t : List Position) (f : Position)
    (hs : s.snake = h :: t)
    (hw : wallCollision (moveHead h s.direction) = false)
    (hsc : checkSelfCollision (moveHead h s.direction) s.snake = false)
    (hf : (moveHead h s.direction).x = s.food.x ∧
      (moveHead h s.direction).y = s.food.y)
    (hloop : foodRetryLoop rho (moveHead h s.direction :: s.snake) fuel 0 =
      some f) :
    tick rho fuel s = some { s with
      snake := moveHead h s.direction :: s.snake
      score := s.score + 10
      food := f } ∧
    isValidFoodPosition f (moveHead h s.direction :: s.snake) = true ∧
    f ∉ moveHead h s.direction :: s.snake := by
  have hvalid : isValidFoodPosition f (moveHead h s.direction :: s.snake) =
      true := by
    obtain ⟨j, hfj, hv⟩ := foodRetryLoop_some_spec rho _ fuel 0 f hloop
    exact hv
  exact ⟨tick_eat rho fuel s h t f hs hw hsc hf hloop, hvalid,
    (isValidFoodPosition_eq_true_iff _ _).mp hvalid⟩

/-- Witness for C5: initial snake moving UP onto the food at (10,9). -/
theorem C5_eat_tick_commit_witness :
    tick (fun _ => ⟨0, 0⟩) 1 eatDemoState = some { eatDemoState with
      snake := moveHead ⟨10, 10⟩ eatDemoState.direction :: eatDemoState.snake
      score := eatDemoState.score + 10
      food := ⟨0, 0⟩ } ∧
    isValidFoodPosition ⟨0, 0⟩
      (moveHead ⟨10, 10⟩ eatDemoState.direction :: eatDemoState.snake) = true ∧
    (⟨0, 0⟩ : Position) ∉
      moveHead ⟨10, 10⟩ eatDemoState.direction :: eatDemoState.snake :=
  C5_eat_tick_commit (fun _ => ⟨0, 0⟩) 1 eatDemoState ⟨10, 10⟩
    [⟨10, 11⟩, ⟨10, 12⟩] ⟨0, 0⟩ rfl (by decide) (by decide) (by decide)
    (by decide)

end Snake

namespace Snake

/-- Movement branch of the key handler: an accepted direction overwrites
the pending direction. -/
theorem handleKeyPress_movement_update (rho : Nat → Position) (fuel : Nat)
    (s : GameState) (key : String) (d : Direction)
    (hrun : s.gameStarted = true) (hpause : s.isPaused = false)
    (hover : s.gameOver = false) (hk : keyMap key = some d)
    (hd : d ≠ oppositeDirections s.direction) :
    handleKeyPress rho fuel key s = some { s with direction := d } := by
  have hkspace : key ≠ " " := by
    intro hkey
    have h0 : keyMap " " = none := by decide
    rw [hkey, h0] at hk
    exact Option.noConfusion hk
  unfold handleKeyPress
  rw [hrun, hpause, hover]
  simp [hkspace, hk, hd]

/-- Movement branch of the key handler: the reverse of the pending
direction is discarded and nothing changes. -/
theorem handleKeyPress_movement_reject (rho : Nat → Position) (fuel : Nat)
    (s : GameState) (key : String) (d : Direction)
    (hrun : s.gameStarted = true) (hpause : s.isPaused = false)
    (hover : s.gameOver = false) (hk : keyMap key = some d)
    (hd : d = oppositeDirections s.direction) :
    handleKeyPress rho fuel key s = some s := by
  have hkspace : key ≠ " " := by
    intro hkey
    have h0 : keyMap " " = none := by decide
    rw [hkey, h0] at hk
    exact Option.noConfusion hk
  unfold handleKeyPress
  rw [hrun, hpause, hover]
  simp [hkspace, hk, hd]

end Snake

namespace Snake

/-- Demo state: running game used for the key-handler claims. -/
def runDemoState : GameState :=
  { snake := INITIAL_SNAKE
    food := ⟨15, 15⟩
    gameOver := false
    score := 30
    isPaused := false
    gameStarted := true
    direction := .UP }

/-- C6: whenever the rejection-sampling food placement returns a
position, that position passes the validity test, so it lies on no
segment of the occupied body and, the draws being floored bounded
randoms, within grid bounds. -/
theorem C6_food_placement_valid (rho : Nat → Position)
    (body : List Position) (fuel k : Nat) (f : Position)
    (hrand : RandBounded rho)
    (_hfree : ∃ p, InBounds p ∧ isValidFoodPosition p body = true)
    (hret : foodRetryLoop rho body fuel k = some f) :
    isValidFoodPosition f body = true ∧ f ∉ body ∧ InBounds f := by
  obtain ⟨j, hfj, hv⟩ := foodRetryLoop_some_spec rho body fuel k f hret
  refine ⟨hv, (isValidFoodPosition_eq_true_iff f body).mp hv, ?_⟩
  rw [hfj]
  exact hrand j

/-- Witness for C6 with a constant bounded stream and body (0,0). -/
theorem C6_food_placement_valid_witness :
    isValidFoodPosition ⟨3, 4⟩ [⟨0, 0⟩] = true ∧
    (⟨3, 4⟩ : Position) ∉ [(⟨0, 0⟩ : Position)] ∧ InBounds ⟨3, 4⟩ :=
  C6_food_placement_valid (fun _ => ⟨3, 4⟩) [⟨0, 0⟩] 1 0 ⟨3, 4⟩
    (by intro k; show InBounds (⟨3, 4⟩ : Position); decide)
    ⟨⟨1, 1⟩, by decide, by decide⟩ (by decide)

/-- C7: the claim that the retry loop terminates whenever a free cell
exists is false for an injected draw stream: with body (0,0), the free
cell (1,1) exists, yet the constant stream that always draws (0,0)
makes the loop return nothing at every fuel bound. -/
theorem C7_retry_loop_counterexample :
    InBounds (⟨1, 1⟩ : Position) ∧
    isValidFoodPosition ⟨1, 1⟩ [⟨0, 0⟩] = true ∧
    ¬∃ fuel f, foodRetryLoop (fun _ => ⟨0, 0⟩) [⟨0, 0⟩] fuel 0 = some f := by
  refine ⟨by decide, by decide, ?_⟩
  rintro ⟨fuel, f, hf⟩
  obtain ⟨j, hfj, hv⟩ :=
    foodRetryLoop_some_spec (fun _ => ⟨0, 0⟩) [⟨0, 0⟩] fuel 0 f hf
  rw [hfj] at hv
  simp only [generateFood] at hv
  exact absurd hv (by decide)

/-- C7 amended: the retry loop terminates exactly when the injected
stream eventually supplies a draw off the occupied body — then some
finite fuel returns a position, and conversely. -/
theorem C7_retry_loop_amended (rho : Nat → Position)
    (body : List Position) :
    (∃ k, isValidFoodPosition (generateFood rho k) body = true) ↔
      ∃ fuel f, foodRetryLoop rho body fuel 0 = some f := by
  constructor
  · rintro ⟨k, hk⟩
    have hk0 : isValidFoodPosition (generateFood rho (0 + k)) body = true := by
      rwa [Nat.zero_add]
    obtain ⟨f, hf⟩ := foodRetryLoop_reaches rho body k 0 hk0
    exact ⟨k + 1, f, hf⟩
  · rintro ⟨fuel, f, hf⟩
    obtain ⟨j, hfj, hv⟩ := foodRetryLoop_some_spec rho body fuel 0 f hf
    refine ⟨j, ?_⟩
    rw [← hfj]
    exact hv

/-- C8: while Running, a mapped direction equal to the reverse of the
pending direction leaves the state untouched; every other mapped
direction overwrites the pending direction unconditionally. -/
theorem C8_direction_filter (rho : Nat → Position) (fuel : Nat)
    (s : GameState) (key : String) (d : Direction)
    (hrun : s.gameStarted = true) (hpause : s.isPaused = false)
    (hover : s.gameOver = false) (hk : keyMap key = some d) :
    (d = oppositeDirections s.direction →
      handleKeyPress rho fuel key s = some s) ∧
    (d ≠ oppositeDirections s.direction →
      handleKeyPress rho fuel key s = some { s with direction := d }) :=
  ⟨fun hd => handleKeyPress_movement_reject rho fuel s key d
      hrun hpause hover hk hd,
    fun hd => handleKeyPress_movement_update rho fuel s key d
      hrun hpause hover hk hd⟩

/-- Witness for C8: key s maps to DOWN, the reverse of the pending UP. -/
theorem C8_direction_filter_witness :
    (Direction.DOWN = oppositeDirections runDemoState.direction →
      handleKeyPress (fun _ => ⟨0, 0⟩) 0 "s" runDemoState =
        some runDemoState) ∧
    (Direction.DOWN ≠ oppositeDirections runDemoState.direction →
      handleKeyPress (fun _ => ⟨0, 0⟩) 0 "s" runDemoState =
        some { runDemoState with direction := .DOWN }) :=
  C8_direction_filter (fun _ => ⟨0, 0⟩) 0 runDemoState "s" .DOWN
    rfl rfl rfl (by decide)

/-- C9: every committed state reachable from initialization keeps the
snake non-empty, with pairwise distinct segments, all on the grid. -/
theorem C9_reachable_snake_invariant (s : GameState) (h : Reachable s) :
    s.snake ≠ [] ∧ s.snake.Nodup ∧ ∀ p ∈ s.snake, InBounds p := by
  have hinv : SnakeInv s := by
    unfold Reachable at h
    induction h with
    | refl => exact snakeInv_initState
    | tail hsteps hstep ih => exact step_preserves_inv _ _ hstep ih
  exact hinv

/-- Witness for C9 at the initial committed state. -/
theorem C9_reachable_snake_invariant_witness :
    initState.snake ≠ [] ∧ initState.snake.Nodup ∧
      ∀ p ∈ initState.snake, InBounds p :=
  C9_reachable_snake_invariant initState Relation.ReflTransGen.refl

/-- C10: while Running, handling any of the eight movement keys changes
at most the pending direction: snake, food, score and the three state
flags are untouched. -/
theorem C10_movement_key_frame (rho : Nat → Position) (fuel : Nat)
    (s : GameState) (key : String) (d : Direction)
    (hrun : s.gameStarted = true) (hpause : s.isPaused = false)
    (hover : s.gameOver = false) (hk : keyMap key = some d) :
    ∃ s', handleKeyPress rho fuel key s = some s' ∧
      s'.snake = s.snake ∧ s'.food = s.food ∧ s'.score = s.score ∧
      s'.gameOver = s.gameOver ∧ s'.isPaused = s.isPaused ∧
      s'.gameStarted = s.gameStarted := by
  by_cases hd : d = oppositeDirections s.direction
  · exact ⟨s, handleKeyPress_movement_reject rho fuel s key d
      hrun hpause hover hk hd, rfl, rfl, rfl, rfl, rfl, rfl⟩
  · exact ⟨{ s with direction := d },
      handleKeyPress_movement_update rho fuel s key d
        hrun hpause hover hk hd, rfl, rfl, rfl, rfl, rfl, rfl⟩

/-- Witness for C10: ArrowLeft while Running changes no committed field. -/
theorem C10_movement_key_frame_witness :
    ∃ s', handleKeyPress (fun _ => ⟨0, 0⟩) 0 "ArrowLeft" runDemoState =
      some s' ∧
      s'.snake = runDemoState.snake ∧ s'.food = runDemoState.food ∧
      s'.score = runDemoState.score ∧ s'.gameOver = runDemoState.gameOver ∧
      s'.isPaused = runDemoState.isPaused ∧
      s'.gameStarted = runDemoState.gameStarted :=
  C10_movement_key_frame (fun _ => ⟨0, 0⟩) 0 runDemoState "ArrowLeft" .LEFT
    rfl rfl rfl (by decide)

end Snake
